import Mathlib

/-
Shallow embedding of the rusty-xinput crate (src/src/lib.rs).

Machine integers (DWORD, WORD, BYTE, u32, u16) are modelled as `Nat`;
signed 16-bit stick axes as `Int`.  None of the embedded operations
performs arithmetic that can overflow: slot indices are only compared
against 4 and passed through, and all other integer fields are moved
verbatim, so no `% 2^w` reduction is required anywhere.

Calls through dynamically bound function pointers are modelled by a
`NativeWorld` record that interprets a raw pointer address (a `Nat`,
`0` = null) together with the call arguments, returning the native
return code and the final contents of the zero-initialised output
buffer that the source passes by mutable pointer.  Every operation
additionally returns the list of native calls it performed, so that
"no native call is made" is a provable statement.

The dynamic loader boundary (`LoadLibraryW` / `GetProcAddress`) is
modelled by a `LoaderEnv` record; `load` records the loader events it
performs (including the fact that it never frees a module).
-/

/-! ## Constants from the winapi crate (Windows SDK values) -/

/-- `ERROR_SUCCESS` from winapi's winerror module. -/
def ERROR_SUCCESS : Nat := 0

/-- `ERROR_DEVICE_NOT_CONNECTED` from winapi's winerror module. -/
def ERROR_DEVICE_NOT_CONNECTED : Nat := 1167

/-- `ERROR_EMPTY` from winapi's winerror module. -/
def ERROR_EMPTY : Nat := 4306

/-- `XINPUT_GAMEPAD_A` button bit from winapi's xinput module. -/
def XINPUT_GAMEPAD_A : Nat := 0x1000

/-- `XINPUT_GAMEPAD_B` button bit from winapi's xinput module. -/
def XINPUT_GAMEPAD_B : Nat := 0x2000

/-- `XINPUT_GAMEPAD_X` button bit from winapi's xinput module. -/
def XINPUT_GAMEPAD_X : Nat := 0x4000

/-- `XINPUT_GAMEPAD_Y` button bit from winapi's xinput module. -/
def XINPUT_GAMEPAD_Y : Nat := 0x8000

/-- `BATTERY_DEVTYPE_GAMEPAD` from winapi's xinput module. -/
def BATTERY_DEVTYPE_GAMEPAD : Nat := 0

/-- `BATTERY_DEVTYPE_HEADSET` from winapi's xinput module. -/
def BATTERY_DEVTYPE_HEADSET : Nat := 1

/-! ## The fixed-layout native records (winapi structs) -/

/-- winapi's `XINPUT_GAMEPAD` record. -/
structure XINPUT_GAMEPAD where
  wButtons : Nat
  bLeftTrigger : Nat
  bRightTrigger : Nat
  sThumbLX : Int
  sThumbLY : Int
  sThumbRX : Int
  sThumbRY : Int
deriving DecidableEq

/-- winapi's `XINPUT_STATE` record. -/
structure XINPUT_STATE where
  dwPacketNumber : Nat
  Gamepad : XINPUT_GAMEPAD
deriving DecidableEq

/-- winapi's `XINPUT_VIBRATION` record. -/
structure XINPUT_VIBRATION where
  wLeftMotorSpeed : Nat
  wRightMotorSpeed : Nat
deriving DecidableEq

/-- winapi's `XINPUT_CAPABILITIES` record. -/
structure XINPUT_CAPABILITIES where
  «Type» : Nat
  SubType : Nat
  Flags : Nat
  Gamepad : XINPUT_GAMEPAD
  Vibration : XINPUT_VIBRATION
deriving DecidableEq

/-- The crate's `XINPUT_CAPABILITIES_EX` record (lib.rs lines 49-58). -/
structure XINPUT_CAPABILITIES_EX where
  capabilities : XINPUT_CAPABILITIES
  vendor_id : Nat
  product_id : Nat
  revision_id : Nat
  a4 : Nat
deriving DecidableEq

/-- winapi's `XINPUT_KEYSTROKE` record. -/
structure XINPUT_KEYSTROKE where
  VirtualKey : Nat
  Unicode : Nat
  Flags : Nat
  UserIndex : Nat
  HidCode : Nat
deriving DecidableEq

/-- winapi's `XINPUT_BATTERY_INFORMATION` record. -/
structure XINPUT_BATTERY_INFORMATION where
  BatteryType : Nat
  BatteryLevel : Nat
deriving DecidableEq

/-- `std::mem::zeroed::<XINPUT_GAMEPAD>()`. -/
def XINPUT_GAMEPAD.zeroed : XINPUT_GAMEPAD :=
  { wButtons := 0, bLeftTrigger := 0, bRightTrigger := 0,
    sThumbLX := 0, sThumbLY := 0, sThumbRX := 0, sThumbRY := 0 }

/-- `std::mem::zeroed::<XINPUT_STATE>()`. -/
def XINPUT_STATE.zeroed : XINPUT_STATE :=
  { dwPacketNumber := 0, Gamepad := XINPUT_GAMEPAD.zeroed }

/-- `std::mem::zeroed::<XINPUT_CAPABILITIES>()`. -/
def XINPUT_CAPABILITIES.zeroed : XINPUT_CAPABILITIES :=
  { «Type» := 0, SubType := 0, Flags := 0,
    Gamepad := XINPUT_GAMEPAD.zeroed,
    Vibration := { wLeftMotorSpeed := 0, wRightMotorSpeed := 0 } }

/-- `std::mem::zeroed::<XINPUT_CAPABILITIES_EX>()`. -/
def XINPUT_CAPABILITIES_EX.zeroed : XINPUT_CAPABILITIES_EX :=
  { capabilities := XINPUT_CAPABILITIES.zeroed,
    vendor_id := 0, product_id := 0, revision_id := 0, a4 := 0 }

/-- `std::mem::zeroed::<XINPUT_KEYSTROKE>()`. -/
def XINPUT_KEYSTROKE.zeroed : XINPUT_KEYSTROKE :=
  { VirtualKey := 0, Unicode := 0, Flags := 0, UserIndex := 0, HidCode := 0 }

/-- `std::mem::zeroed::<XINPUT_BATTERY_INFORMATION>()`. -/
def XINPUT_BATTERY_INFORMATION.zeroed : XINPUT_BATTERY_INFORMATION :=
  { BatteryType := 0, BatteryLevel := 0 }

/-! ## Error taxonomies (lib.rs lines 156-179 and 749-779) -/

/-- `XInputLoadingFailure` (lib.rs lines 156-179). -/
inductive XInputLoadingFailure where
  | AlreadyLoading
  | AlreadyActive
  | UnknownState
  | NoDLL
  | NoPointers
deriving DecidableEq

/-- `XInputUsageError` (lib.rs lines 749-762). -/
inductive XInputUsageError where
  | XInputNotLoaded
  | InvalidControllerID
  | DeviceNotConnected
  | UnknownError (code : Nat)
deriving DecidableEq

/-- `XInputOptionalFnUsageError` (lib.rs lines 764-779). -/
inductive XInputOptionalFnUsageError where
  | XInputNotLoaded
  | InvalidControllerID
  | DeviceNotConnected
  | FunctionNotLoaded
  | UnknownError (code : Nat)
deriving DecidableEq

/-! ## The state wrapper and its accessors (lib.rs lines 440-494 and 502-504) -/

/-- `XInputState` wraps a raw `XINPUT_STATE` (lib.rs lines 440-444). -/
structure XInputState where
  raw : XINPUT_STATE

/-- The `PartialEq` impl for `XInputState` (lib.rs lines 467-475):
equality is based only on `dwPacketNumber`. -/
def XInputState.eq (a b : XInputState) : Bool :=
  a.raw.dwPacketNumber == b.raw.dwPacketNumber

/-- `XInputState::north_button` (lib.rs lines 491-494). -/
def XInputState.north_button (s : XInputState) : Bool :=
  (s.raw.Gamepad.wButtons &&& XINPUT_GAMEPAD_Y) != 0

/-- `XInputState::south_button` (lib.rs lines 501-504). -/
def XInputState.south_button (s : XInputState) : Bool :=
  (s.raw.Gamepad.wButtons &&& XINPUT_GAMEPAD_A) != 0

/-- `XInputBatteryInformation`'s `BatteryType` newtype (lib.rs line 1015). -/
structure BatteryType where
  val : Nat
deriving DecidableEq

/-- `XInputBatteryInformation`'s `BatteryLevel` newtype (lib.rs line 1047). -/
structure BatteryLevel where
  val : Nat
deriving DecidableEq

/-- `XInputBatteryInformation` (lib.rs lines 1077-1083). -/
structure XInputBatteryInformation where
  battery_type : BatteryType
  battery_level : BatteryLevel
deriving DecidableEq

/-! ## The handle and the native-call boundary -/

/-- `XInputHandle` (lib.rs lines 94-108).  Function pointers are raw
addresses (`Nat`); optional entry points are `Option Nat` (the source
stores `Option<fn>` and only wraps non-null resolved addresses). -/
structure XInputHandle where
  handle : Nat
  xinput_enable : Nat
  xinput_get_state : Nat
  xinput_set_state : Nat
  xinput_get_capabilities : Nat
  opt_xinput_get_state_ex : Option Nat
  opt_xinput_get_capabilities_ex : Option Nat
  opt_xinput_get_keystroke : Option Nat
  opt_xinput_get_battery_information : Option Nat
  opt_xinput_get_audio_device_ids : Option Nat
  opt_xinput_get_dsound_audio_device_guids : Option Nat
deriving DecidableEq

/-- Interpretation of a call through a bound function pointer.  Each
field takes the pointer address, the call arguments, and the
zero-initialised output buffer the source passes by mutable pointer;
it returns the native return code and the final buffer contents. -/
structure NativeWorld where
  callGetState : Nat → Nat → XINPUT_STATE → Nat × XINPUT_STATE
  callGetStateEx : Nat → Nat → XINPUT_STATE → Nat × XINPUT_STATE
  callSetState : Nat → Nat → XINPUT_VIBRATION → Nat
  callGetCapabilities : Nat → Nat → Nat → XINPUT_CAPABILITIES → Nat × XINPUT_CAPABILITIES
  callGetCapabilitiesEx :
    Nat → Nat → Nat → Nat → XINPUT_CAPABILITIES_EX → Nat × XINPUT_CAPABILITIES_EX
  callGetKeystroke : Nat → Nat → Nat → XINPUT_KEYSTROKE → Nat × XINPUT_KEYSTROKE
  callGetBatteryInformation :
    Nat → Nat → Nat → XINPUT_BATTERY_INFORMATION → Nat × XINPUT_BATTERY_INFORMATION

/-- One call through a bound function pointer, as recorded in an
operation's native-call trace. -/
inductive NativeCall where
  | getState (ptr userIndex : Nat)
  | getStateEx (ptr userIndex : Nat)
  | setState (ptr userIndex : Nat) (vibration : XINPUT_VIBRATION)
  | getCapabilities (ptr userIndex flags : Nat)
  | getCapabilitiesEx (ptr arg1 userIndex flags : Nat)
  | getKeystroke (ptr userIndex reserved : Nat)
  | getBatteryInformation (ptr userIndex devType : Nat)
deriving DecidableEq

/-! ## The query operations (lib.rs lines 815-1134)

Each operation returns its Rust result together with the list of
native calls it performed. -/

/-- `XInputHandle::get_state` (lib.rs lines 815-830). -/
def XInputHandle.get_state (w : NativeWorld) (self : XInputHandle) (user_index : Nat) :
    Except XInputUsageError XInputState × List NativeCall :=
  if user_index ≥ 4 then
    (.error .InvalidControllerID, [])
  else
    let output := XINPUT_STATE.zeroed
    let call := w.callGetState self.xinput_get_state user_index output
    let return_status := call.1
    let trace := [NativeCall.getState self.xinput_get_state user_index]
    if return_status = ERROR_SUCCESS then
      (.ok { raw := call.2 }, trace)
    else if return_status = ERROR_DEVICE_NOT_CONNECTED then
      (.error .DeviceNotConnected, trace)
    else
      (.error (.UnknownError return_status), trace)

/-- `XInputHandle::get_state_ex` (lib.rs lines 840-858). -/
def XInputHandle.get_state_ex (w : NativeWorld) (self : XInputHandle) (user_index : Nat) :
    Except XInputUsageError XInputState × List NativeCall :=
  if user_index ≥ 4 then
    (.error .InvalidControllerID, [])
  else
    let output := XINPUT_STATE.zeroed
    match self.opt_xinput_get_state_ex with
    | none => (.error .XInputNotLoaded, [])
    | some f =>
      let call := w.callGetStateEx f user_index output
      let return_status := call.1
      let trace := [NativeCall.getStateEx f user_index]
      if return_status = ERROR_SUCCESS then
        (.ok { raw := call.2 }, trace)
      else if return_status = ERROR_DEVICE_NOT_CONNECTED then
        (.error .DeviceNotConnected, trace)
      else
        (.error (.UnknownError return_status), trace)

/-- `XInputHandle::set_state` (lib.rs lines 889-912). -/
def XInputHandle.set_state (w : NativeWorld) (self : XInputHandle)
    (user_index left_motor_speed right_motor_speed : Nat) :
    Except XInputUsageError Unit × List NativeCall :=
  if user_index ≥ 4 then
    (.error .InvalidControllerID, [])
  else
    let input : XINPUT_VIBRATION :=
      { wLeftMotorSpeed := left_motor_speed, wRightMotorSpeed := right_motor_speed }
    let return_status := w.callSetState self.xinput_set_state user_index input
    let trace := [NativeCall.setState self.xinput_set_state user_index input]
    if return_status = ERROR_SUCCESS then
      (.ok (), trace)
    else if return_status = ERROR_DEVICE_NOT_CONNECTED then
      (.error .DeviceNotConnected, trace)
    else
      (.error (.UnknownError return_status), trace)

/-- `XInputHandle::get_capabilities` (lib.rs lines 932-949). -/
def XInputHandle.get_capabilities (w : NativeWorld) (self : XInputHandle) (user_index : Nat) :
    Except XInputUsageError XINPUT_CAPABILITIES × List NativeCall :=
  if user_index ≥ 4 then
    (.error .InvalidControllerID, [])
  else
    let capabilities := XINPUT_CAPABILITIES.zeroed
    let call := w.callGetCapabilities self.xinput_get_capabilities user_index 0 capabilities
    let return_status := call.1
    let trace := [NativeCall.getCapabilities self.xinput_get_capabilities user_index 0]
    if return_status = ERROR_SUCCESS then
      (.ok call.2, trace)
    else if return_status = ERROR_DEVICE_NOT_CONNECTED then
      (.error .DeviceNotConnected, trace)
    else
      (.error (.UnknownError return_status), trace)

/-- `XInputHandle::get_capabilities_ex` (lib.rs lines 959-982).  The
source calls the bound function as `f(1, user_index, 0, &mut out)`. -/
def XInputHandle.get_capabilities_ex (w : NativeWorld) (self : XInputHandle) (user_index : Nat) :
    Except XInputUsageError XINPUT_CAPABILITIES_EX × List NativeCall :=
  if user_index ≥ 4 then
    (.error .InvalidControllerID, [])
  else
    let capabilities_ex := XINPUT_CAPABILITIES_EX.zeroed
    match self.opt_xinput_get_capabilities_ex with
    | none => (.error .XInputNotLoaded, [])
    | some f =>
      let call := w.callGetCapabilitiesEx f 1 user_index 0 capabilities_ex
      let return_status := call.1
      let trace := [NativeCall.getCapabilitiesEx f 1 user_index 0]
      if return_status = ERROR_SUCCESS then
        (.ok call.2, trace)
      else if return_status = ERROR_DEVICE_NOT_CONNECTED then
        (.error .DeviceNotConnected, trace)
      else
        (.error (.UnknownError return_status), trace)

/-- `XInputHandle::get_keystroke` (lib.rs lines 987-1010). -/
def XInputHandle.get_keystroke (w : NativeWorld) (self : XInputHandle) (user_index : Nat) :
    Except XInputOptionalFnUsageError (Option XINPUT_KEYSTROKE) × List NativeCall :=
  if user_index ≥ 4 then
    (.error .InvalidControllerID, [])
  else
    match self.opt_xinput_get_keystroke with
    | some func =>
      let keystroke := XINPUT_KEYSTROKE.zeroed
      let call := w.callGetKeystroke func user_index 0 keystroke
      let return_status := call.1
      let trace := [NativeCall.getKeystroke func user_index 0]
      if return_status = ERROR_SUCCESS then
        (.ok (some call.2), trace)
      else if return_status = ERROR_EMPTY then
        (.ok none, trace)
      else if return_status = ERROR_DEVICE_NOT_CONNECTED then
        (.error .DeviceNotConnected, trace)
      else
        (.error (.UnknownError return_status), trace)
    | none =>
      (.error .FunctionNotLoaded, [])

/-- `XInputHandle::xinput_get_battery_information` (lib.rs lines
1086-1113).  Note: its return-code match has arms only for
`ERROR_SUCCESS` and the catch-all; unlike every other operation there
is no `ERROR_DEVICE_NOT_CONNECTED` arm. -/
def XInputHandle.xinput_get_battery_information (w : NativeWorld) (self : XInputHandle)
    (user_index dev_type : Nat) :
    Except XInputOptionalFnUsageError XInputBatteryInformation × List NativeCall :=
  if user_index ≥ 4 then
    (.error .InvalidControllerID, [])
  else
    match self.opt_xinput_get_battery_information with
    | some func =>
      let output := XINPUT_BATTERY_INFORMATION.zeroed
      let call := w.callGetBatteryInformation func user_index dev_type output
      let return_status := call.1
      let trace := [NativeCall.getBatteryInformation func user_index dev_type]
      if return_status = ERROR_SUCCESS then
        (.ok { battery_type := { val := call.2.BatteryType },
               battery_level := { val := call.2.BatteryLevel } }, trace)
      else
        (.error (.UnknownError return_status), trace)
    | none =>
      (.error .FunctionNotLoaded, [])

/-- `XInputHandle::get_gamepad_battery_information` (lib.rs lines 1118-1123). -/
def XInputHandle.get_gamepad_battery_information (w : NativeWorld) (self : XInputHandle)
    (user_index : Nat) :
    Except XInputOptionalFnUsageError XInputBatteryInformation × List NativeCall :=
  self.xinput_get_battery_information w user_index BATTERY_DEVTYPE_GAMEPAD

/-- `XInputHandle::get_headset_battery_information` (lib.rs lines 1128-1133). -/
def XInputHandle.get_headset_battery_information (w : NativeWorld) (self : XInputHandle)
    (user_index : Nat) :
    Except XInputOptionalFnUsageError XInputBatteryInformation × List NativeCall :=
  self.xinput_get_battery_information w user_index BATTERY_DEVTYPE_HEADSET

/-! ## The dynamic loader boundary and `load` (lib.rs lines 200-386) -/

/-- Argument of `GetProcAddress`: an exported name, or a raw ordinal
cast to an `LPCSTR` (the source does this for ordinals 100 and 108). -/
inductive ProcSpec where
  | byName (name : String)
  | byOrdinal (ordinal : Nat)
deriving DecidableEq

/-- The operating system's dynamic-loader interface.
`loadLibraryW` returns a module handle (`0` = null, load failed);
`getProcAddress` returns a function address (`0` = null, not found). -/
structure LoaderEnv where
  loadLibraryW : String → Nat
  getProcAddress : Nat → ProcSpec → Nat

/-- One loader-boundary event performed during `load`.  `freeLibrary`
is part of the OS interface; the source never calls it, and the trace
makes that provable. -/
inductive LoaderEvent where
  | loadLibrary (name : String) (ret : Nat)
  | procLookup (module : Nat) (spec : ProcSpec) (ret : Nat)
  | freeLibrary (module : Nat)
deriving DecidableEq

/-- Whether a loader event is a `freeLibrary` call. -/
def LoaderEvent.isFree : LoaderEvent → Bool
  | .freeLibrary _ => true
  | _ => false

/-- `GetProcAddress` followed by the source's null check: the resolved
address is kept only when non-null (the source then transmutes it). -/
def lookupProc (env : LoaderEnv) (module : Nat) (spec : ProcSpec) : Option Nat :=
  let ptr := env.getProcAddress module spec
  if ptr ≠ 0 then some ptr else none

/-- `XInputHandle::load` (lib.rs lines 218-386), instrumented with the
list of loader-boundary events it performs.  `LoadLibraryW` is called
once; whether or not its result is null, symbol resolution proceeds
against that module handle; the handle is constructed iff all four
required symbols resolved, otherwise `NoPointers` is returned.  There
is no `FreeLibrary` call on any path. -/
def XInputHandle.load (env : LoaderEnv) (s : String) :
    Except XInputLoadingFailure XInputHandle × List LoaderEvent :=
  let xinput_handle := env.loadLibraryW s
  let opt_xinput_enable := lookupProc env xinput_handle (.byName "XInputEnable")
  let opt_xinput_get_state := lookupProc env xinput_handle (.byName "XInputGetState")
  let opt_xinput_set_state := lookupProc env xinput_handle (.byName "XInputSetState")
  let opt_xinput_get_state_ex := lookupProc env xinput_handle (.byOrdinal 100)
  let opt_xinput_get_capabilities :=
    lookupProc env xinput_handle (.byName "XInputGetCapabilities")
  let opt_xinput_get_capabilities_ex := lookupProc env xinput_handle (.byOrdinal 108)
  let opt_xinput_get_keystroke := lookupProc env xinput_handle (.byName "XInputGetKeystroke")
  let opt_xinput_get_battery_information :=
    lookupProc env xinput_handle (.byName "XInputGetBatteryInformation")
  let opt_xinput_get_dsound_audio_device_guids :=
    lookupProc env xinput_handle (.byName "XInputGetDSoundAudioDeviceGuids")
  let opt_xinput_get_audio_device_ids :=
    lookupProc env xinput_handle (.byName "XInputGetAudioDeviceIds")
  let trace : List LoaderEvent :=
    [ .loadLibrary s xinput_handle,
      .procLookup xinput_handle (.byName "XInputEnable")
        (env.getProcAddress xinput_handle (.byName "XInputEnable")),
      .procLookup xinput_handle (.byName "XInputGetState")
        (env.getProcAddress xinput_handle (.byName "XInputGetState")),
      .procLookup xinput_handle (.byName "XInputSetState")
        (env.getProcAddress xinput_handle (.byName "XInputSetState")),
      .procLookup xinput_handle (.byOrdinal 100)
        (env.getProcAddress xinput_handle (.byOrdinal 100)),
      .procLookup xinput_handle (.byName "XInputGetCapabilities")
        (env.getProcAddress xinput_handle (.byName "XInputGetCapabilities")),
      .procLookup xinput_handle (.byOrdinal 108)
        (env.getProcAddress xinput_handle (.byOrdinal 108)),
      .procLookup xinput_handle (.byName "XInputGetKeystroke")
        (env.getProcAddress xinput_handle (.byName "XInputGetKeystroke")),
      .procLookup xinput_handle (.byName "XInputGetBatteryInformation")
        (env.getProcAddress xinput_handle (.byName "XInputGetBatteryInformation")),
      .procLookup xinput_handle (.byName "XInputGetDSoundAudioDeviceGuids")
        (env.getProcAddress xinput_handle (.byName "XInputGetDSoundAudioDeviceGuids")),
      .procLookup xinput_handle (.byName "XInputGetAudioDeviceIds")
        (env.getProcAddress xinput_handle (.byName "XInputGetAudioDeviceIds")) ]
  match opt_xinput_enable, opt_xinput_get_state, opt_xinput_set_state,
      opt_xinput_get_capabilities with
  | some e, some gs, some ss, some gc =>
    (.ok { handle := xinput_handle,
           xinput_enable := e,
           xinput_get_state := gs,
           xinput_set_state := ss,
           xinput_get_capabilities := gc,
           opt_xinput_get_state_ex := opt_xinput_get_state_ex,
           opt_xinput_get_capabilities_ex := opt_xinput_get_capabilities_ex,
           opt_xinput_get_keystroke := opt_xinput_get_keystroke,
           opt_xinput_get_battery_information := opt_xinput_get_battery_information,
           opt_xinput_get_audio_device_ids := opt_xinput_get_audio_device_ids,
           opt_xinput_get_dsound_audio_device_guids :=
             opt_xinput_get_dsound_audio_device_guids }, trace)
  | _, _, _, _ =>
    (.error .NoPointers, trace)

/-- The candidate DLL names of `load_default`, in the source's fixed
order (lib.rs lines 201-207). -/
def dllNames : List String :=
  ["xinput1_4.dll", "xinput1_3.dll", "xinput1_2.dll", "xinput1_1.dll", "xinput9_1_0.dll"]

/-- The `for` loop of `load_default`: try each candidate in order and
return the first successfully constructed handle. -/
def loadFirst (env : LoaderEnv) : List String → Except XInputLoadingFailure XInputHandle
  | [] => .error .NoDLL
  | lib_name :: rest =>
    match (XInputHandle.load env lib_name).1 with
    | .ok handle => .ok handle
    | .error _ => loadFirst env rest

/-- `XInputHandle::load_default` (lib.rs lines 200-215). -/
def XInputHandle.load_default (env : LoaderEnv) : Except XInputLoadingFailure XInputHandle :=
  loadFirst env dllNames

/-! ## Concrete worlds, handles and loader environments used by the
closed evaluation theorems -/

/-- A native world in which every bound function returns the given
code and leaves its output buffer untouched. -/
def constWorld (code : Nat) : NativeWorld :=
  { callGetState := fun _ _ buf => (code, buf),
    callGetStateEx := fun _ _ buf => (code, buf),
    callSetState := fun _ _ _ => code,
    callGetCapabilities := fun _ _ _ buf => (code, buf),
    callGetCapabilitiesEx := fun _ _ _ _ buf => (code, buf),
    callGetKeystroke := fun _ _ _ buf => (code, buf),
    callGetBatteryInformation := fun _ _ _ buf => (code, buf) }

/-- A fully loaded handle with distinct non-null pointer addresses. -/
def sampleHandle : XInputHandle :=
  { handle := 1,
    xinput_enable := 2,
    xinput_get_state := 3,
    xinput_set_state := 4,
    xinput_get_capabilities := 5,
    opt_xinput_get_state_ex := some 6,
    opt_xinput_get_capabilities_ex := some 7,
    opt_xinput_get_keystroke := some 8,
    opt_xinput_get_battery_information := some 9,
    opt_xinput_get_audio_device_ids := some 10,
    opt_xinput_get_dsound_audio_device_guids := some 11 }

/-- A handle on which no optional entry point was resolved. -/
def noOptHandle : XInputHandle :=
  { handle := 1,
    xinput_enable := 2,
    xinput_get_state := 3,
    xinput_set_state := 4,
    xinput_get_capabilities := 5,
    opt_xinput_get_state_ex := none,
    opt_xinput_get_capabilities_ex := none,
    opt_xinput_get_keystroke := none,
    opt_xinput_get_battery_information := none,
    opt_xinput_get_audio_device_ids := none,
    opt_xinput_get_dsound_audio_device_guids := none }

/-- A raw state with packet number 7 and button bitmask `0x1000`. -/
def state7 : XINPUT_STATE :=
  { dwPacketNumber := 7, Gamepad := { XINPUT_GAMEPAD.zeroed with wButtons := 0x1000 } }

/-- A world whose get-state call reports success with `state7`. -/
def packet7World : NativeWorld :=
  { constWorld 0 with callGetState := fun _ _ _ => (ERROR_SUCCESS, state7) }

/-- A loader environment in which only `xinput9_1_0.dll` loads (as
module 7) and every symbol of module 7 resolves (to address 5). -/
def onlyLastEnv : LoaderEnv :=
  { loadLibraryW := fun s => if s = "xinput9_1_0.dll" then 7 else 0,
    getProcAddress := fun m _ => if m = 7 then 5 else 0 }

/-- The handle `load` constructs from `onlyLastEnv`'s last candidate. -/
def lastHandle : XInputHandle :=
  { handle := 7,
    xinput_enable := 5,
    xinput_get_state := 5,
    xinput_set_state := 5,
    xinput_get_capabilities := 5,
    opt_xinput_get_state_ex := some 5,
    opt_xinput_get_capabilities_ex := some 5,
    opt_xinput_get_keystroke := some 5,
    opt_xinput_get_battery_information := some 5,
    opt_xinput_get_audio_device_ids := some 5,
    opt_xinput_get_dsound_audio_device_guids := some 5 }

/-- A loader environment where every library loads (module 3) but no
symbol resolves. -/
def noSymbolsEnv : LoaderEnv :=
  { loadLibraryW := fun _ => 3, getProcAddress := fun _ _ => 0 }

/-- A loader environment where no library loads and symbol lookup on
the null module finds nothing. -/
def noLibEnv : LoaderEnv :=
  { loadLibraryW := fun _ => 0, getProcAddress := fun _ _ => 0 }

/-! ## C1 -/

/-- C1: for every native world, every handle (whatever the state of
its optional bindings) and every slot argument `user_index ≥ 4`, each
of the eight slot-taking operations returns the `InvalidControllerID`
error with an empty native-call trace: the slot check decides the
result before the function-not-loaded check and before any call
through a bound function pointer. -/
theorem invalid_slot_rejected_without_native_call
    (w : NativeWorld) (h : XInputHandle) (l r : Nat) (u : Nat) (hu : 4 ≤ u) :
    h.get_state w u = (.error .InvalidControllerID, []) ∧
    h.get_state_ex w u = (.error .InvalidControllerID, []) ∧
    h.set_state w u l r = (.error .InvalidControllerID, []) ∧
    h.get_capabilities w u = (.error .InvalidControllerID, []) ∧
    h.get_capabilities_ex w u = (.error .InvalidControllerID, []) ∧
    h.get_keystroke w u = (.error .InvalidControllerID, []) ∧
    h.get_gamepad_battery_information w u = (.error .InvalidControllerID, []) ∧
    h.get_headset_battery_information w u = (.error .InvalidControllerID, []) := by
  simp [XInputHandle.get_state, XInputHandle.get_state_ex, XInputHandle.set_state,
    XInputHandle.get_capabilities, XInputHandle.get_capabilities_ex,
    XInputHandle.get_keystroke, XInputHandle.get_gamepad_battery_information,
    XInputHandle.get_headset_battery_information,
    XInputHandle.xinput_get_battery_information, ge_iff_le, hu]

/-- Witness for C1: slot `u32::MAX = 4294967295` is rejected by all
eight operations on a concrete fully-loaded handle. -/
theorem invalid_slot_rejected_witness :
    sampleHandle.get_state (constWorld 0) 4294967295 =
      (.error .InvalidControllerID, []) ∧
    sampleHandle.get_state_ex (constWorld 0) 4294967295 =
      (.error .InvalidControllerID, []) ∧
    sampleHandle.set_state (constWorld 0) 4294967295 0 0 =
      (.error .InvalidControllerID, []) ∧
    sampleHandle.get_capabilities (constWorld 0) 4294967295 =
      (.error .InvalidControllerID, []) ∧
    sampleHandle.get_capabilities_ex (constWorld 0) 4294967295 =
      (.error .InvalidControllerID, []) ∧
    sampleHandle.get_keystroke (constWorld 0) 4294967295 =
      (.error .InvalidControllerID, []) ∧
    sampleHandle.get_gamepad_battery_information (constWorld 0) 4294967295 =
      (.error .InvalidControllerID, []) ∧
    sampleHandle.get_headset_battery_information (constWorld 0) 4294967295 =
      (.error .InvalidControllerID, []) :=
  invalid_slot_rejected_without_native_call (constWorld 0) sampleHandle 0 0
    4294967295 (by norm_num)

/-! ## C4 -/

/-- C4: two `XInputState` values compare equal exactly when their
wrapped packet numbers are equal: equal packet numbers give `true`
regardless of any difference in button, trigger or stick fields, and
differing packet numbers always give `false`. -/
theorem xinput_state_eq_iff_packet (a b : XInputState) :
    (a.raw.dwPacketNumber = b.raw.dwPacketNumber → XInputState.eq a b = true) ∧
    (a.raw.dwPacketNumber ≠ b.raw.dwPacketNumber → XInputState.eq a b = false) := by
  constructor <;> intro hp <;> simp [XInputState.eq, hp]

/-- Witness for C4: a state with packet 7 and buttons `0x1000`
compares equal to a state with packet 7 and all fields zero, and
compares unequal to an identical-fields state with packet 8. -/
theorem xinput_state_eq_witness :
    XInputState.eq { raw := state7 } { raw := { XINPUT_STATE.zeroed with dwPacketNumber := 7 } } =
      true ∧
    XInputState.eq { raw := state7 }
      { raw := { state7 with dwPacketNumber := 8 } } = false :=
  ⟨(xinput_state_eq_iff_packet { raw := state7 }
      { raw := { XINPUT_STATE.zeroed with dwPacketNumber := 7 } }).1 rfl,
   (xinput_state_eq_iff_packet { raw := state7 }
      { raw := { state7 with dwPacketNumber := 8 } }).2 (by decide)⟩

/-! ## C5 -/

/-- Counterexample for C5: on a fully-loaded handle with a valid slot,
when the native battery call returns the device-not-connected code
(1167), `get_gamepad_battery_information` returns
`UnknownError 1167`, not the typed `DeviceNotConnected` outcome
(`xinput_get_battery_information`'s return-code match has no
device-not-connected arm). -/
theorem battery_device_not_connected_counterexample :
    (sampleHandle.get_gamepad_battery_information
        (constWorld ERROR_DEVICE_NOT_CONNECTED) 0).1 =
      .error (.UnknownError 1167) ∧
    (sampleHandle.get_gamepad_battery_information
        (constWorld ERROR_DEVICE_NOT_CONNECTED) 0).1 ≠
      .error .DeviceNotConnected := by
  constructor
  · rfl
  · intro hcontra
    have : XInputOptionalFnUsageError.UnknownError 1167 =
        XInputOptionalFnUsageError.DeviceNotConnected := by
      have h1 : (sampleHandle.get_gamepad_battery_information
          (constWorld ERROR_DEVICE_NOT_CONNECTED) 0).1 =
          .error (.UnknownError 1167) := rfl
      exact Except.error.inj (h1.symm.trans hcontra)
    exact absurd this (by simp)

/-- C5 (amended): with a valid slot and a resolved entry point, every
operation except the battery-information pair returns the typed
`DeviceNotConnected` outcome when the native call returns the
device-not-connected code and the populated record when it returns
the success code; the battery-information operations return the
populated record on success but surface the device-not-connected code
as `UnknownError 1167`. -/
theorem valid_slot_native_code_classification
    (w : NativeWorld) (h : XInputHandle) (l r : Nat) (u : Nat) (hu : u < 4) :
    ((w.callGetState h.xinput_get_state u XINPUT_STATE.zeroed).1 =
        ERROR_DEVICE_NOT_CONNECTED →
      (h.get_state w u).1 = .error .DeviceNotConnected) ∧
    ((w.callGetState h.xinput_get_state u XINPUT_STATE.zeroed).1 = ERROR_SUCCESS →
      (h.get_state w u).1 =
        .ok { raw := (w.callGetState h.xinput_get_state u XINPUT_STATE.zeroed).2 }) ∧
    (∀ f, h.opt_xinput_get_state_ex = some f →
      ((w.callGetStateEx f u XINPUT_STATE.zeroed).1 = ERROR_DEVICE_NOT_CONNECTED →
        (h.get_state_ex w u).1 = .error .DeviceNotConnected) ∧
      ((w.callGetStateEx f u XINPUT_STATE.zeroed).1 = ERROR_SUCCESS →
        (h.get_state_ex w u).1 =
          .ok { raw := (w.callGetStateEx f u XINPUT_STATE.zeroed).2 })) ∧
    ((w.callSetState h.xinput_set_state u
        { wLeftMotorSpeed := l, wRightMotorSpeed := r } = ERROR_DEVICE_NOT_CONNECTED →
      (h.set_state w u l r).1 = .error .DeviceNotConnected) ∧
     (w.callSetState h.xinput_set_state u
        { wLeftMotorSpeed := l, wRightMotorSpeed := r } = ERROR_SUCCESS →
      (h.set_state w u l r).1 = .ok ())) ∧
    ((w.callGetCapabilities h.xinput_get_capabilities u 0
        XINPUT_CAPABILITIES.zeroed).1 = ERROR_DEVICE_NOT_CONNECTED →
      (h.get_capabilities w u).1 = .error .DeviceNotConnected) ∧
    ((w.callGetCapabilities h.xinput_get_capabilities u 0
        XINPUT_CAPABILITIES.zeroed).1 = ERROR_SUCCESS →
      (h.get_capabilities w u).1 =
        .ok (w.callGetCapabilities h.xinput_get_capabilities u 0
          XINPUT_CAPABILITIES.zeroed).2) ∧
    (∀ f, h.opt_xinput_get_capabilities_ex = some f →
      ((w.callGetCapabilitiesEx f 1 u 0 XINPUT_CAPABILITIES_EX.zeroed).1 =
          ERROR_DEVICE_NOT_CONNECTED →
        (h.get_capabilities_ex w u).1 = .error .DeviceNotConnected) ∧
      ((w.callGetCapabilitiesEx f 1 u 0 XINPUT_CAPABILITIES_EX.zeroed).1 =
          ERROR_SUCCESS →
        (h.get_capabilities_ex w u).1 =
          .ok (w.callGetCapabilitiesEx f 1 u 0 XINPUT_CAPABILITIES_EX.zeroed).2)) ∧
    (∀ f, h.opt_xinput_get_keystroke = some f →
      ((w.callGetKeystroke f u 0 XINPUT_KEYSTROKE.zeroed).1 =
          ERROR_DEVICE_NOT_CONNECTED →
        (h.get_keystroke w u).1 = .error .DeviceNotConnected) ∧
      ((w.callGetKeystroke f u 0 XINPUT_KEYSTROKE.zeroed).1 = ERROR_SUCCESS →
        (h.get_keystroke w u).1 =
          .ok (some (w.callGetKeystroke f u 0 XINPUT_KEYSTROKE.zeroed).2))) ∧
    (∀ f, h.opt_xinput_get_battery_information = some f →
      ∀ dev ∈ [BATTERY_DEVTYPE_GAMEPAD, BATTERY_DEVTYPE_HEADSET],
      ((w.callGetBatteryInformation f u dev XINPUT_BATTERY_INFORMATION.zeroed).1 =
          ERROR_DEVICE_NOT_CONNECTED →
        (h.xinput_get_battery_information w u dev).1 =
          .error (.UnknownError ERROR_DEVICE_NOT_CONNECTED)) ∧
      ((w.callGetBatteryInformation f u dev XINPUT_BATTERY_INFORMATION.zeroed).1 =
          ERROR_SUCCESS →
        (h.xinput_get_battery_information w u dev).1 =
          .ok { battery_type :=
                  { val := (w.callGetBatteryInformation f u dev
                      XINPUT_BATTERY_INFORMATION.zeroed).2.BatteryType },
                battery_level :=
                  { val := (w.callGetBatteryInformation f u dev
                      XINPUT_BATTERY_INFORMATION.zeroed).2.BatteryLevel } })) := by
  have hnot : ¬ u ≥ 4 := not_le.mpr hu
  refine ⟨?_, ?_, ?_, ⟨?_, ?_⟩, ?_, ?_, ?_, ?_, ?_⟩
  · intro hc
    simp [XInputHandle.get_state, hnot, hc, ERROR_DEVICE_NOT_CONNECTED, ERROR_SUCCESS]
  · intro hc
    simp [XInputHandle.get_state, hnot, hc, ERROR_SUCCESS]
  · intro f hf
    constructor <;> intro hc <;>
      simp [XInputHandle.get_state_ex, hnot, hf, hc,
        ERROR_DEVICE_NOT_CONNECTED, ERROR_SUCCESS]
  · intro hc
    simp [XInputHandle.set_state, hnot, hc, ERROR_DEVICE_NOT_CONNECTED, ERROR_SUCCESS]
  · intro hc
    simp [XInputHandle.set_state, hnot, hc, ERROR_SUCCESS]
  · intro hc
    simp [XInputHandle.get_capabilities, hnot, hc,
      ERROR_DEVICE_NOT_CONNECTED, ERROR_SUCCESS]
  · intro hc
    simp [XInputHandle.get_capabilities, hnot, hc, ERROR_SUCCESS]
  · intro f hf
    constructor <;> intro hc <;>
      simp [XInputHandle.get_capabilities_ex, hnot, hf, hc,
        ERROR_DEVICE_NOT_CONNECTED, ERROR_SUCCESS]
  · intro f hf
    constructor <;> intro hc <;>
      simp [XInputHandle.get_keystroke, hnot, hf, hc,
        ERROR_DEVICE_NOT_CONNECTED, ERROR_SUCCESS, ERROR_EMPTY]
  · intro f hf dev _
    constructor <;> intro hc <;>
      simp [XInputHandle.xinput_get_battery_information, hnot, hf, hc,
        ERROR_DEVICE_NOT_CONNECTED, ERROR_SUCCESS]

/-- Witness for C5 (amended): concrete evaluations on slot 0 of a
fully-loaded handle, in a world where every native call reports
device-not-connected, and in a world where every call succeeds. -/
theorem valid_slot_native_code_witness :
    (sampleHandle.get_state (constWorld 1167) 0).1 = .error .DeviceNotConnected ∧
    (sampleHandle.get_keystroke (constWorld 1167) 0).1 = .error .DeviceNotConnected ∧
    (sampleHandle.xinput_get_battery_information (constWorld 1167) 0
        BATTERY_DEVTYPE_GAMEPAD).1 = .error (.UnknownError 1167) ∧
    (sampleHandle.get_state (constWorld 0) 0).1 =
      .ok { raw := XINPUT_STATE.zeroed } ∧
    (sampleHandle.set_state (constWorld 0) 0 0 0).1 = .ok () :=
  ⟨(valid_slot_native_code_classification (constWorld 1167) sampleHandle 0 0 0
      (by norm_num)).1 rfl,
   ((valid_slot_native_code_classification (constWorld 1167) sampleHandle 0 0 0
      (by norm_num)).2.2.2.2.2.2.2.1 8 rfl).1 rfl,
   (((valid_slot_native_code_classification (constWorld 1167) sampleHandle 0 0 0
      (by norm_num)).2.2.2.2.2.2.2.2 9 rfl BATTERY_DEVTYPE_GAMEPAD
      (by simp)).1 rfl),
   (valid_slot_native_code_classification (constWorld 0) sampleHandle 0 0 0
      (by norm_num)).2.1 rfl,
   ((valid_slot_native_code_classification (constWorld 0) sampleHandle 0 0 0
      (by norm_num)).2.2.2.1).2 rfl⟩

/-! ## C6 -/

/-- Counterexample for C6: on a handle whose optional entry points
were not resolved, `get_state_ex` and `get_capabilities_ex` with
valid slot 0 return the `XInputNotLoaded` variant of
`XInputUsageError` — not the `FunctionNotLoaded` variant of the
optional-function error taxonomy (their result type,
`XInputUsageError`, has no such variant at all). -/
theorem get_state_ex_missing_fn_counterexample :
    noOptHandle.get_state_ex (constWorld 0) 0 =
      (.error XInputUsageError.XInputNotLoaded, []) ∧
    noOptHandle.get_capabilities_ex (constWorld 0) 0 =
      (.error XInputUsageError.XInputNotLoaded, []) ∧
    XInputUsageError.XInputNotLoaded ≠ XInputUsageError.DeviceNotConnected := by
  refine ⟨rfl, rfl, by simp⟩

/-- C6 (amended): on a handle whose corresponding optional entry
point was not resolved, a call with a valid slot makes no native
call and returns: `XInputUsageError.XInputNotLoaded` for
`get_state_ex` and `get_capabilities_ex`, and
`XInputOptionalFnUsageError.FunctionNotLoaded` for `get_keystroke`
and both battery-information operations. -/
theorem optional_fn_missing_classified
    (w : NativeWorld) (h : XInputHandle) (u : Nat) (hu : u < 4) :
    (h.opt_xinput_get_state_ex = none →
      h.get_state_ex w u = (.error .XInputNotLoaded, [])) ∧
    (h.opt_xinput_get_capabilities_ex = none →
      h.get_capabilities_ex w u = (.error .XInputNotLoaded, [])) ∧
    (h.opt_xinput_get_keystroke = none →
      h.get_keystroke w u = (.error .FunctionNotLoaded, [])) ∧
    (h.opt_xinput_get_battery_information = none →
      h.get_gamepad_battery_information w u = (.error .FunctionNotLoaded, []) ∧
      h.get_headset_battery_information w u = (.error .FunctionNotLoaded, [])) := by
  have hnot : ¬ u ≥ 4 := not_le.mpr hu
  refine ⟨fun hf => ?_, fun hf => ?_, fun hf => ?_, fun hf => ⟨?_, ?_⟩⟩ <;>
    simp [XInputHandle.get_state_ex, XInputHandle.get_capabilities_ex,
      XInputHandle.get_keystroke, XInputHandle.get_gamepad_battery_information,
      XInputHandle.get_headset_battery_information,
      XInputHandle.xinput_get_battery_information, hnot, hf]

/-- Witness for C6 (amended): concrete evaluations on the handle with
no optional entry points, at slot 0. -/
theorem optional_fn_missing_witness :
    noOptHandle.get_state_ex (constWorld 0) 0 = (.error .XInputNotLoaded, []) ∧
    noOptHandle.get_keystroke (constWorld 0) 0 = (.error .FunctionNotLoaded, []) ∧
    noOptHandle.get_gamepad_battery_information (constWorld 0) 0 =
      (.error .FunctionNotLoaded, []) ∧
    noOptHandle.get_headset_battery_information (constWorld 0) 0 =
      (.error .FunctionNotLoaded, []) :=
  ⟨(optional_fn_missing_classified (constWorld 0) noOptHandle 0 (by norm_num)).1 rfl,
   (optional_fn_missing_classified (constWorld 0) noOptHandle 0
      (by norm_num)).2.2.1 rfl,
   ((optional_fn_missing_classified (constWorld 0) noOptHandle 0
      (by norm_num)).2.2.2 rfl).1,
   ((optional_fn_missing_classified (constWorld 0) noOptHandle 0
      (by norm_num)).2.2.2 rfl).2⟩

/-! ## C9 -/

/-- Counterexample for C9: `get_state(0)` on a connected controller
reporting packet number 7 and button bitmask `0x1000` returns an `Ok`
state whose `north_button()` is `false` (bit `0x1000` is
`XINPUT_GAMEPAD_A`, the south button; `north_button` tests
`XINPUT_GAMEPAD_Y = 0x8000`). -/
theorem get_state_packet7_north_counterexample :
    (sampleHandle.get_state packet7World 0).1 = .ok { raw := state7 } ∧
    XInputState.north_button { raw := state7 } = false := by
  exact ⟨rfl, by decide⟩

/-- C9 (amended): `get_state(0)` on a connected controller whose
reported state has packet number 7 and button bitmask `0x1000`
returns an `Ok` state whose `south_button()` accessor is `true` and
whose packet number is 7, the raw packet number and button mask being
passed through verbatim into the returned wrapper. -/
theorem get_state_packet7_passthrough
    (w : NativeWorld) (h : XInputHandle)
    (hcall : w.callGetState h.xinput_get_state 0 XINPUT_STATE.zeroed =
      (ERROR_SUCCESS, state7)) :
    (h.get_state w 0).1 = .ok { raw := state7 } ∧
    XInputState.south_button { raw := state7 } = true ∧
    state7.dwPacketNumber = 7 ∧
    state7.Gamepad.wButtons = 0x1000 := by
  refine ⟨?_, by decide, rfl, rfl⟩
  simp [XInputHandle.get_state, hcall, ERROR_SUCCESS]

/-- Witness for C9 (amended): the concrete world whose get-state call
reports success with `state7`. -/
theorem get_state_packet7_witness :
    (sampleHandle.get_state packet7World 0).1 = .ok { raw := state7 } ∧
    XInputState.south_button { raw := state7 } = true :=
  ⟨(get_state_packet7_passthrough packet7World sampleHandle rfl).1,
   (get_state_packet7_passthrough packet7World sampleHandle rfl).2.1⟩

/-! ## Helper lemmas about the candidate loop of `load_default` -/

/-- The candidate loop returns `NoDLL` exactly when every candidate
fails to produce a handle. -/
theorem loadFirst_noDLL_iff (env : LoaderEnv) (names : List String) :
    loadFirst env names = .error .NoDLL ↔
    ∀ n ∈ names, ∃ e, (XInputHandle.load env n).1 = .error e := by
  induction names with
  | nil => simp [loadFirst]
  | cons n rest ih =>
    rcases hload : (XInputHandle.load env n).1 with e | hd
    · simp [loadFirst, hload, ih]
    · simp [loadFirst, hload]

/-- If every candidate before `name` fails and `load` succeeds on
`name`, the candidate loop returns the handle obtained from `name`. -/
theorem loadFirst_first_success (env : LoaderEnv) (pre post : List String)
    (name : String) (h : XInputHandle)
    (hpre : ∀ n ∈ pre, ∃ e, (XInputHandle.load env n).1 = .error e)
    (hname : (XInputHandle.load env name).1 = .ok h) :
    loadFirst env (pre ++ name :: post) = .ok h := by
  induction pre with
  | nil => simp [loadFirst, hname]
  | cons p ps ih =>
    obtain ⟨e, he⟩ := hpre p (List.mem_cons_self p ps)
    simpa [loadFirst, he] using
      ih (fun n hn => hpre n (List.mem_cons_of_mem p hn))

/-! ## C7 -/

/-- C7: `load_default` attempts the candidate DLL names in the fixed
source order; whenever every candidate before some name fails and
`load` succeeds on that name, `load_default` returns exactly the
handle bound to that name (in particular a candidate list where only
the last of the five entries is loadable yields the handle bound to
that entry), and it returns `NoDLL` if and only if every candidate
fails. -/
theorem load_default_first_success_or_noDLL (env : LoaderEnv) :
    (∀ (pre post : List String) (name : String) (h : XInputHandle),
      dllNames = pre ++ name :: post →
      (∀ n ∈ pre, ∃ e, (XInputHandle.load env n).1 = .error e) →
      (XInputHandle.load env name).1 = .ok h →
      XInputHandle.load_default env = .ok h) ∧
    (XInputHandle.load_default env = .error .NoDLL ↔
      ∀ n ∈ dllNames, ∃ e, (XInputHandle.load env n).1 = .error e) := by
  constructor
  · intro pre post name h hsplit hpre hname
    unfold XInputHandle.load_default
    rw [hsplit]
    exact loadFirst_first_success env pre post name h hpre hname
  · unfold XInputHandle.load_default
    exact loadFirst_noDLL_iff env dllNames

/-- Witness for C7: in `onlyLastEnv` the first four candidates fail
with `NoPointers` and only `xinput9_1_0.dll` (the last of the five)
loads; `load_default` returns the handle bound to it. -/
theorem load_default_only_last_witness :
    XInputHandle.load_default onlyLastEnv = .ok lastHandle :=
  (load_default_first_success_or_noDLL onlyLastEnv).1
    ["xinput1_4.dll", "xinput1_3.dll", "xinput1_2.dll", "xinput1_1.dll"] []
    "xinput9_1_0.dll" lastHandle rfl
    (by intro n hn
        fin_cases hn <;> exact ⟨.NoPointers, rfl⟩)
    rfl

/-! ## C8 -/

/-- Counterexample for C8: in an environment where the library loads
(module 3) but no symbol resolves, `load` fails with `NoPointers`,
the library was acquired (the loader trace starts with a successful
`loadLibrary` event), and the trace contains no `freeLibrary` event:
the partially-acquired library is not released on this path. -/
theorem load_nopointers_not_released_counterexample :
    (XInputHandle.load noSymbolsEnv "xinput1_4.dll").1 = .error .NoPointers ∧
    (XInputHandle.load noSymbolsEnv "xinput1_4.dll").2.head? =
      some (.loadLibrary "xinput1_4.dll" 3) ∧
    (XInputHandle.load noSymbolsEnv "xinput1_4.dll").2.filter
      LoaderEvent.isFree = [] := by
  exact ⟨rfl, rfl, rfl⟩

/-- C8 (amended): when any of the four required symbols (enable,
get-state, set-state, get-capabilities) does not resolve, the whole
load fails with `NoPointers`; the loader trace never contains a
`freeLibrary` event (the module is retained, not released); and
missing optional symbols never cause this failure — whenever all four
required symbols resolve, `load` returns a handle. -/
theorem load_nopointers_no_release
    (env : LoaderEnv) (name : String) :
    ((env.getProcAddress (env.loadLibraryW name) (.byName "XInputEnable") = 0 ∨
      env.getProcAddress (env.loadLibraryW name) (.byName "XInputGetState") = 0 ∨
      env.getProcAddress (env.loadLibraryW name) (.byName "XInputSetState") = 0 ∨
      env.getProcAddress (env.loadLibraryW name)
        (.byName "XInputGetCapabilities") = 0) →
      (XInputHandle.load env name).1 = .error .NoPointers) ∧
    ((XInputHandle.load env name).2.filter LoaderEvent.isFree = []) ∧
    ((env.getProcAddress (env.loadLibraryW name) (.byName "XInputEnable") ≠ 0 ∧
      env.getProcAddress (env.loadLibraryW name) (.byName "XInputGetState") ≠ 0 ∧
      env.getProcAddress (env.loadLibraryW name) (.byName "XInputSetState") ≠ 0 ∧
      env.getProcAddress (env.loadLibraryW name)
        (.byName "XInputGetCapabilities") ≠ 0) →
      ∃ h, (XInputHandle.load env name).1 = .ok h) := by
  refine ⟨?_, ?_, ?_⟩
  · intro hmiss
    simp only [XInputHandle.load, lookupProc]
    split
    · exfalso
      rcases hmiss with hz | hz | hz | hz <;> simp_all
    · rfl
  · simp only [XInputHandle.load, lookupProc]
    split <;> rfl
  · rintro ⟨h1, h2, h3, h4⟩
    simp only [XInputHandle.load, lookupProc]
    split
    · exact ⟨_, rfl⟩
    · rename_i hne
      exfalso
      exact hne (env.getProcAddress (env.loadLibraryW name) (.byName "XInputEnable"))
        (env.getProcAddress (env.loadLibraryW name) (.byName "XInputGetState"))
        (env.getProcAddress (env.loadLibraryW name) (.byName "XInputSetState"))
        (env.getProcAddress (env.loadLibraryW name) (.byName "XInputGetCapabilities"))
        (by simp [h1]) (by simp [h2]) (by simp [h3]) (by simp [h4])

/-- Witness for C8 (amended): concrete evaluation in `noSymbolsEnv`,
where every required-symbol lookup returns null. -/
theorem load_nopointers_no_release_witness :
    (XInputHandle.load noSymbolsEnv "xinput1_3.dll").1 = .error .NoPointers ∧
    (XInputHandle.load noSymbolsEnv "xinput1_3.dll").2.filter
      LoaderEvent.isFree = [] :=
  ⟨(load_nopointers_no_release noSymbolsEnv "xinput1_3.dll").1 (Or.inl rfl),
   (load_nopointers_no_release noSymbolsEnv "xinput1_3.dll").2.1⟩

/-! ## C10 -/

/-- C10: for every environment and library name, `load` returns
either a handle or the `NoPointers` failure — never `NoDLL`,
`AlreadyLoading`, `AlreadyActive` or `UnknownState`; in particular,
when the loader returns a null module handle and symbol resolution
against the null handle finds nothing, `load` returns `NoPointers`,
not `NoDLL`. -/
theorem load_ok_or_nopointers (env : LoaderEnv) (name : String) :
    ((∃ h, (XInputHandle.load env name).1 = .ok h) ∨
      (XInputHandle.load env name).1 = .error .NoPointers) ∧
    (env.loadLibraryW name = 0 →
      (∀ p, env.getProcAddress 0 p = 0) →
      (XInputHandle.load env name).1 = .error .NoPointers) := by
  constructor
  · simp only [XInputHandle.load, lookupProc]
    split
    · exact Or.inl ⟨_, rfl⟩
    · exact Or.inr rfl
  · intro h0 hnull
    simp [XInputHandle.load, lookupProc, h0, hnull]

/-- Witness for C10: in the environment where no library loads and
null-module lookups find nothing, `load` returns `NoPointers`. -/
theorem load_ok_or_nopointers_witness :
    (XInputHandle.load noLibEnv "xinput1_4.dll").1 = .error .NoPointers :=
  (load_ok_or_nopointers noLibEnv "xinput1_4.dll").2 rfl (fun _ => rfl)
